import Mathlib

/-!
Verification development for the MeteoXabia scraper (src/main.py).

The program scrapes weather-station pages in two template families
("avamet" and "wx9"), extracts named measurements by regex search over the
flattened page text plus a labeled fallback scan, caches snapshots for 120
seconds, and serves them through a small HTTP API.

Embedding conventions:
* Python floats are modelled as exact rationals (`Rat`); `round(x, 2)` is
  modelled as round-half-even to two decimal places on the exact value.
* The network fetch (`requests.get` + `raise_for_status`) together with the
  DOM flattening (`BeautifulSoup` + the `find_all` text walk, main.py lines
  57-62 and 140-144) are external collaborators; they are modelled as an
  oracle `FetchFn : String -> Except String (List String)` mapping a URL to
  either a failure message or the ordered list of flattened text fragments.
  The extractors themselves are embedded from the source.
* Python's `re.search` is embedded by a small backtracking matcher over an
  explicit pattern AST; each pattern of the source is transcribed into that
  AST next to a comment quoting the original pattern string.  The matcher
  implements leftmost search, left-to-right alternation preference, greedy
  and lazy quantifiers, and last-write-wins capture groups, which is the
  fragment of Python `re` semantics these patterns use.
* `time.time()` is modelled as an explicit integer parameter `now` (the
  source only compares differences against the TTL and truncates with
  `int(now)` when storing `fetched_at`).
* Module-level mutable state (`ESTACIONES`, `CACHE`) is threaded as an
  explicit `World` value through the endpoint functions.
-/

namespace Meteo

/-! ## Basic string helpers -/

/-- Python `\s` (ASCII part, which covers every input considered here). -/
def isPySpace (c : Char) : Bool :=
  c == ' ' || c == '\t' || c == '\n' || c == '\r' || c == '\x0b' || c == '\x0c'

/-- Does `hay` start with `needle`? -/
def startsWithL : List Char → List Char → Bool
  | _, [] => true
  | [], _ :: _ => false
  | h :: hs, n :: ns => h == n && startsWithL hs ns

/-- Substring test on character lists (Python `needle in hay`). -/
def hasSub : List Char → List Char → Bool
  | [], needle => needle.isEmpty
  | h :: t, needle => startsWithL (h :: t) needle || hasSub t needle

/-- Python's `in` operator on strings: substring containment. -/
def strContains (hay needle : String) : Bool := hasSub hay.data needle.data

/-- Python `str.strip()` (whitespace at both ends). -/
def pyStrip (cs : List Char) : List Char :=
  ((cs.dropWhile isPySpace).reverse.dropWhile isPySpace).reverse

/-- Python `str.lower()` (per-character, ASCII as in the source's labels). -/
def toLowerL (cs : List Char) : List Char := cs.map Char.toLower

/-- Python `" | ".join(items)` on the underlying characters. -/
def joinBar : List String → List Char
  | [] => []
  | [s] => s.data
  | s :: t :: rest => s.data ++ (' ' :: '|' :: ' ' :: joinBar (t :: rest))

/-- Python `t.split(":", 1)`: the part before the first colon and the part
after it (only used under a `":" in t` guard in the source). -/
def splitAtColon : List Char → List Char × List Char
  | [] => ([], [])
  | c :: cs =>
    if c == ':' then ([], cs)
    else
      let p := splitAtColon cs
      (c :: p.1, p.2)

/-! ## Exact rational arithmetic helpers

Batteries marks `Rat.add`, `Rat.mul`, `Rat.sub` and `Rat.inv` irreducible,
so the model uses explicit `mkRat` arithmetic (same values, reducible). -/

/-- A natural number as a rational. -/
def qOfNat (n : Nat) : Rat := mkRat (Int.ofNat n) 1

/-- An integer as a rational. -/
def qOfInt (i : Int) : Rat := mkRat i 1

/-- Negation. -/
def qNeg (a : Rat) : Rat := mkRat (- a.num) a.den

/-- Addition. -/
def qAdd (a b : Rat) : Rat :=
  mkRat (a.num * (b.den : Int) + b.num * (a.den : Int)) (a.den * b.den)

/-- Multiplication. -/
def qMul (a b : Rat) : Rat := mkRat (a.num * b.num) (a.den * b.den)

/-- Strict comparison (denominators are positive). -/
def qLt (a b : Rat) : Bool := a.num * (b.den : Int) < b.num * (a.den : Int)

/-! ## Number parsing (main.py lines 43-49) -/

/-- Accumulate the value of a run of decimal digits. -/
def digitsVal : List Char → Nat → Nat
  | [], acc => acc
  | c :: cs, acc => digitsVal cs (acc * 10 + (c.toNat - 48))

/-- Value of `digits(.digits)?` (also accepts `,` as separator, matching
`float(s.replace(",", "."))` after the source's comma replacement). -/
def pyFloatCore (cs : List Char) : Rat :=
  let ip := cs.takeWhile Char.isDigit
  let rest := cs.dropWhile Char.isDigit
  let fp := match rest with
    | c :: fr => if c == '.' || c == ',' then fr.takeWhile Char.isDigit else []
    | [] => []
  qAdd (qOfNat (digitsVal ip 0)) (mkRat (Int.ofNat (digitsVal fp 0)) (10 ^ fp.length))

/-- Python `float(s.replace(",", "."))` on a string matched by the numeric
capture `[-+]?\d+(?:[.,]\d+)?`. -/
def pyFloat (s : String) : Rat :=
  match s.data with
  | '-' :: rest => qNeg (pyFloatCore rest)
  | '+' :: rest => pyFloatCore rest
  | cs => pyFloatCore cs

/-- Attempt of `[-+]?\d+(?:\.\d+)?` anchored at the current position. -/
def parseNumAt : List Char → Option Rat
  | [] => none
  | c :: cs =>
    if c.isDigit then some (pyFloatCore (c :: cs))
    else if c == '-' || c == '+' then
      match cs with
      | d :: _ =>
        if d.isDigit then
          some (if c == '-' then qNeg (pyFloatCore cs) else pyFloatCore cs)
        else none
      | [] => none
    else none

/-- Leftmost match of the number pattern. -/
def extractAux : List Char → Option Rat
  | [] => none
  | c :: cs => (parseNumAt (c :: cs)).orElse (fun _ => extractAux cs)

/-- main.py `extract_number`: first number of `s.replace(",", ".")` as a
float, `none` on empty or numberless input. -/
def extract_number (s : String) : Option Rat :=
  if s.data.isEmpty then none
  else extractAux (s.data.map (fun c => if c == ',' then '.' else c))

/-! ## Rounding (Python `round(x, 2)`, modelled half-even on the exact value) -/

/-- Floor of a rational as an integer. -/
def ratFloor (q : Rat) : Int := Int.fdiv q.num (Int.ofNat q.den)

/-- Round to the nearest integer, ties to even. -/
def roundHalfEven (q : Rat) : Int :=
  let f : Int := ratFloor q
  let r : Rat := qAdd q (qNeg (qOfInt f))
  if qLt r (mkRat 1 2) then f
  else if qLt (mkRat 1 2) r then f + 1
  else if f % 2 = 0 then f else f + 1

/-- Python `round(x, 2)`. -/
def round2 (q : Rat) : Rat := mkRat (roundHalfEven (qMul q (qOfNat 100))) 100

/-! ## A tiny regex engine for the source's patterns -/

/-- Character classes appearing in the source's patterns. -/
inductive CC where
  | digit
  | space
  | anyNoNL
  | oneOf (cs : List Char)
  | ndsign
  | union (a b : CC)
  deriving Repr

/-- Does the class accept the character?  `ndsign` is `[^\d\-+]`. -/
def CC.test : CC → Char → Bool
  | .digit, c => c.isDigit
  | .space, c => isPySpace c
  | .anyNoNL, c => c != '\n'
  | .oneOf cs, c => cs.contains c
  | .ndsign, c => !c.isDigit && c != '-' && c != '+'
  | .union a b, c => a.test c || b.test c

/-- Pattern AST: literals (optionally case-insensitive, for `re.I`),
classes, sequence, alternation (left preferred), capture groups, and
counted repetition (`lo` to `hi`, `hi = none` meaning unbounded; `lz`
selects the lazy variant). -/
inductive RE where
  | eps
  | lit (s : String) (ci : Bool)
  | cls (c : CC)
  | seq (a b : RE)
  | alt (a b : RE)
  | grp (n : Nat) (a : RE)
  | rep (a : RE) (lo : Nat) (hi : Option Nat) (lz : Bool)
  deriving Repr

/-- Captures: group index to matched text, most recent first. -/
abbrev Caps := List (Nat × String)

/-- Association-list lookup (first hit wins; used for dicts and captures). -/
def dictGet {κ α : Type} [DecidableEq κ] : List (κ × α) → κ → Option α
  | [], _ => none
  | p :: rest, k => if p.1 = k then some p.2 else dictGet rest k

/-- Association-list update in place (Python dict assignment). -/
def dictSet {κ α : Type} [DecidableEq κ] : List (κ × α) → κ → α → List (κ × α)
  | [], k, v => [(k, v)]
  | p :: rest, k, v => if p.1 = k then (k, v) :: rest else p :: dictSet rest k v

/-- Single-character comparison, optionally case-insensitive. -/
def charMatches (ci : Bool) (p c : Char) : Bool :=
  if ci then p.toLower == c.toLower else p == c

/-- Consume a literal from the front of the input. -/
def litChomp (ci : Bool) : List Char → List Char → Option (List Char)
  | [], s => some s
  | _ :: _, [] => none
  | p :: ps, c :: cs => if charMatches ci p c then litChomp ci ps cs else none

/-- The consumed prefix: `before` minus its suffix `after`, as a string. -/
def takenBetween (before after : List Char) : String :=
  String.mk (before.take (before.length - after.length))

/-- Backtracking matcher in continuation style.  `k` receives the remaining
input and the captures of the current path; the first path on which `k`
succeeds wins, giving Python's leftmost-first semantics (alternation tries
the left branch first, greedy repetition tries longer first, lazy shorter
first).  `fuel` bounds the recursion depth; every repetition body of the
source's patterns consumes at least one character, so the generous fuel
passed by `reSearch` is never exhausted on those patterns. -/
def matchM : Nat → RE → List Char → Caps → (List Char → Caps → Option Caps) → Option Caps
  | 0, _, _, _, _ => none
  | Nat.succ f, r, s, caps, k =>
    match r with
    | .eps => k s caps
    | .lit l ci =>
      match litChomp ci l.data s with
      | some rest => k rest caps
      | none => none
    | .cls c =>
      match s with
      | [] => none
      | ch :: rest => if c.test ch then k rest caps else none
    | .seq a b => matchM f a s caps (fun s2 c2 => matchM f b s2 c2 k)
    | .alt a b => (matchM f a s caps k).orElse (fun _ => matchM f b s caps k)
    | .grp n a => matchM f a s caps (fun s2 c2 => k s2 ((n, takenBetween s s2) :: c2))
    | .rep a lo hi lz =>
      match lo with
      | Nat.succ lo2 =>
        matchM f a s caps (fun s2 c2 => matchM f (.rep a lo2 (hi.map Nat.pred) lz) s2 c2 k)
      | 0 =>
        match hi with
        | some 0 => k s caps
        | _ =>
          let more := fun (_ : Unit) =>
            matchM f a s caps (fun s2 c2 => matchM f (.rep a 0 (hi.map Nat.pred) lz) s2 c2 k)
          if lz then (k s caps).orElse more else (more ()).orElse (fun _ => k s caps)

/-- Fuel bound for the matcher; far above the depth any of the transcribed
patterns can reach on the inputs evaluated in this development. -/
def reFuel : Nat := 600

/-- Try to match at each successive start position (Python `re.search`). -/
def searchAux (r : RE) : List Char → Option Caps
  | [] => matchM reFuel r [] [] (fun _ c => some c)
  | c :: cs =>
    (matchM reFuel r (c :: cs) [] (fun _ cp => some cp)).orElse (fun _ => searchAux r cs)

/-- Python `re.search(pattern, s)`, returning the capture groups. -/
def reSearch (r : RE) (s : String) : Option Caps := searchAux r s.data

/-- `m.group(n)` for a group that participated in the match; the default is
unreachable for the mandatory groups it is applied to. -/
def capStr (caps : Caps) (n : Nat) : String := (dictGet caps n).getD ""

/-- Python `a or b` on optional strings (`None` and `""` are falsy). -/
def pyOrStr : Option String → Option String → Option String
  | some s, b => if s.data.isEmpty then b else some s
  | none, b => b

/-! ## Pattern combinator shorthands -/

/-- Sequence a list of patterns. -/
def rseq : List RE → RE
  | [] => RE.eps
  | [r] => r
  | r :: rest => RE.seq r (rseq rest)

/-- Greedy `?`. -/
def ropt (r : RE) : RE := RE.rep r 0 (some 1) false

/-- Greedy `*` of a class. -/
def rstar (c : CC) : RE := RE.rep (RE.cls c) 0 none false

/-- Greedy `+` of a class. -/
def rplus (c : CC) : RE := RE.rep (RE.cls c) 1 none false

/-- `[:\s]*`. -/
def sepStar : RE := rstar (CC.union (CC.oneOf [':']) CC.space)

/-- `\s*`. -/
def wsStar : RE := rstar CC.space

/-- The numeric capture `([-+]?\d+(?:[\.,]\d+)?)` as group `n`. -/
def numGrp (n : Nat) : RE :=
  RE.grp n (rseq [ropt (RE.cls (CC.oneOf ['-', '+'])), rplus CC.digit,
                  ropt (rseq [RE.cls (CC.oneOf ['.', ',']), rplus CC.digit])])

/-- `.{0,hi}?`. -/
def lazyAny (hi : Nat) : RE := RE.rep (RE.cls CC.anyNoNL) 0 (some hi) true

/-- `[^\d\-+]*?`. -/
def lazyNotNum : RE := RE.rep (RE.cls CC.ndsign) 0 none true

/-- Three-way alternation, left to right. -/
def alt3 (a b c : RE) : RE := RE.alt a (RE.alt b c)

/-- Four-way alternation, left to right. -/
def alt4 (a b c d : RE) : RE := RE.alt a (RE.alt b (RE.alt c d))

/-- Case-insensitive literal (under `re.I`). -/
def liti (s : String) : RE := RE.lit s true

/-- Case-sensitive literal. -/
def lits (s : String) : RE := RE.lit s false

/-! ## The field vocabulary and sparse field map -/

/-- The fixed field vocabulary of the extractors and projections (the string
keys used by main.py). -/
inductive Field where
  | temperature
  | humidity
  | wind_speed_kmh
  | rain_mm
  | day_temp_max
  | day_temp_min
  | day_wind_max
  | month_rain_mm
  | year_rain_mm
  | rain_today
  | month_temp_max
  | month_temp_min
  | year_temp_max
  | year_temp_min
  | pressure
  | wind_dir
  deriving DecidableEq, Repr

/-- The sparse field mapping `res` built by the extractors (a Python dict in
insertion order). -/
abbrev FieldMap := List (Field × Rat)

/-- `res.get(f)` / `res[f]` lookup. -/
def fmGet (m : FieldMap) (f : Field) : Option Rat := dictGet m f

/-- `res[f] = v`. -/
def fmSet (m : FieldMap) (f : Field) (v : Rat) : FieldMap := dictSet m f v

/-- Python `f in res`. -/
def fmHas (m : FieldMap) (f : Field) : Bool := (fmGet m f).isSome

/-! ## The source's regex patterns, transcribed

Each definition transcribes one pattern string of main.py into the `RE`
AST; the comment quotes the original. -/

/-- Line 66: `([Tt]emp(?:erature)?|Temperatura|Temperatura:)[:\s]*([-+]?\d+(?:[\.,]\d+)?)\s*°?C`
(no flags). -/
def reAvametTemp : RE :=
  rseq [RE.grp 1 (alt3 (rseq [RE.cls (CC.oneOf ['T', 't']), lits "emp", ropt (lits "erature")])
                       (lits "Temperatura") (lits "Temperatura:")),
        sepStar, numGrp 2, wsStar, ropt (lits "°"), lits "C"]

/-- Line 71 (and line 147 of the wx9 variant):
`([-+]?\d+(?:[\.,]\d+)?)\s*°\s*C|([-+]?\d+(?:[\.,]\d+)?)\s*°C` (no flags). -/
def reBareDegC : RE :=
  RE.alt (rseq [numGrp 1, wsStar, lits "°", wsStar, lits "C"])
         (rseq [numGrp 2, wsStar, lits "°C"])

/-- Line 76: `(Hum|Humedad|Humidity)[:\s]*([-+]?\d+(?:[\.,]\d+)?)\s*%?` with `re.I`. -/
def reAvametHum : RE :=
  rseq [RE.grp 1 (alt3 (liti "Hum") (liti "Humedad") (liti "Humidity")),
        sepStar, numGrp 2, wsStar, ropt (liti "%")]

/-- Line 80: `(Wind|Viento|Velocidad del viento)[:\s]*([-+]?\d+(?:[\.,]\d+)?)\s*(km/h|kph|m/s)?`
with `re.I`.  Note the unit alternation has no `mph`. -/
def reAvametWind : RE :=
  rseq [RE.grp 1 (alt3 (liti "Wind") (liti "Viento") (liti "Velocidad del viento")),
        sepStar, numGrp 2, wsStar,
        ropt (RE.grp 3 (alt3 (liti "km/h") (liti "kph") (liti "m/s")))]

/-- Line 89: `(Rain|Lluvia).{0,15}?([-+]?\d+(?:[\.,]\d+)?)\s*(mm|l|litros)?` with `re.I`. -/
def reAvametRain : RE :=
  rseq [RE.grp 1 (RE.alt (liti "Rain") (liti "Lluvia")),
        lazyAny 15, numGrp 2, wsStar,
        ropt (RE.grp 3 (alt3 (liti "mm") (liti "l") (liti "litros")))]

/-- Line 93: `(Max(?:imum)? Temp(?:erature)?|Máx(?:ima)? temperatura|Temperatura máxima)[^\d\-+]*?([-+]?\d+(?:[\.,]\d+)?)`
with `re.I`. -/
def reAvametTmax : RE :=
  rseq [RE.grp 1 (alt3 (rseq [liti "Max", ropt (liti "imum"), liti " Temp", ropt (liti "erature")])
                       (rseq [liti "Máx", ropt (liti "ima"), liti " temperatura"])
                       (liti "Temperatura máxima")),
        lazyNotNum, numGrp 2]

/-- Line 94: `(Min(?:imum)? Temp(?:erature)?|Mín(?:ima)? temperatura|Temperatura mínima)[^\d\-+]*?([-+]?\d+(?:[\.,]\d+)?)`
with `re.I`. -/
def reAvametTmin : RE :=
  rseq [RE.grp 1 (alt3 (rseq [liti "Min", ropt (liti "imum"), liti " Temp", ropt (liti "erature")])
                       (rseq [liti "Mín", ropt (liti "ima"), liti " temperatura"])
                       (liti "Temperatura mínima")),
        lazyNotNum, numGrp 2]

/-- Line 100: `(Month|Mes).{0,15}?([-+]?\d+(?:[\.,]\d+)?)\s*(mm|l)?` with `re.I`. -/
def reAvametMonth : RE :=
  rseq [RE.grp 1 (RE.alt (liti "Month") (liti "Mes")),
        lazyAny 15, numGrp 2, wsStar, ropt (RE.grp 3 (RE.alt (liti "mm") (liti "l")))]

/-- Line 101: `(Year|Año).{0,15}?([-+]?\d+(?:[\.,]\d+)?)\s*(mm|l)?` with `re.I`. -/
def reAvametYear : RE :=
  rseq [RE.grp 1 (RE.alt (liti "Year") (liti "Año")),
        lazyAny 15, numGrp 2, wsStar, ropt (RE.grp 3 (RE.alt (liti "mm") (liti "l")))]

/-- Line 152: `Humidity[:\s]*([-+]?\d+(?:[\.,]\d+)?)\s*%` with `re.I`. -/
def reWx9Hum : RE := rseq [liti "Humidity", sepStar, numGrp 1, wsStar, liti "%"]

/-- Line 156: `Wind(?: Speed)?[:\s]*([-+]?\d+(?:[\.,]\d+)?)\s*(km/h|kph|mph|m/s)?` with `re.I`. -/
def reWx9Wind : RE :=
  rseq [liti "Wind", ropt (liti " Speed"), sepStar, numGrp 1, wsStar,
        ropt (RE.grp 2 (alt4 (liti "km/h") (liti "kph") (liti "mph") (liti "m/s")))]

/-- Line 166: `(Rain|Precipitation|Precipitación|Lluvia).{0,20}?([-+]?\d+(?:[\.,]\d+)?)\s*(mm|l)?`
with `re.I`. -/
def reWx9Rain : RE :=
  rseq [RE.grp 1 (alt4 (liti "Rain") (liti "Precipitation") (liti "Precipitación") (liti "Lluvia")),
        lazyAny 20, numGrp 2, wsStar, ropt (RE.grp 3 (RE.alt (liti "mm") (liti "l")))]

/-- Line 171: `Max(?:imum)? Temp(?:erature)?[^\d\-+]*?([-+]?\d+(?:[\.,]\d+)?)` with `re.I`. -/
def reWx9Tmax : RE :=
  rseq [liti "Max", ropt (liti "imum"), liti " Temp", ropt (liti "erature"), lazyNotNum, numGrp 1]

/-- Line 172: `Min(?:imum)? Temp(?:erature)?[^\d\-+]*?([-+]?\d+(?:[\.,]\d+)?)` with `re.I`. -/
def reWx9Tmin : RE :=
  rseq [liti "Min", ropt (liti "imum"), liti " Temp", ropt (liti "erature"), lazyNotNum, numGrp 1]

/-- Line 173: `Max Wind[^\d\-+]*?([-+]?\d+(?:[\.,]\d+)?)` with `re.I`. -/
def reWx9MaxWind : RE := rseq [liti "Max Wind", lazyNotNum, numGrp 1]

/-! ## Wind unit normalization (inline in the source's wind match arms) -/

/-- Lines 82-87: `unit = m.group(3) or "km/h"`; multiply by 3.6 when the
unit contains `m/s`; store `round(val, 2)`.  (The matched unit is always a
nonempty string, so Python's `unit and` truthiness test is always true.) -/
def avamet_wind_normalize (val : Rat) (unitCap : Option String) : Rat :=
  let u := unitCap.getD "km/h"
  if strContains u "m/s" then round2 (qMul val (mkRat 18 5)) else round2 val

/-- Lines 158-164: lower-cased unit; `mph` multiplies by 1.60934, `m/s` by
3.6; store `round(val, 2)`. -/
def wx9_wind_normalize (val : Rat) (unitCap : Option String) : Rat :=
  let u := String.mk (toLowerL (unitCap.getD "").data)
  let v1 := if strContains u "mph" then qMul val (mkRat 80467 50000) else val
  let v2 := if strContains u "m/s" then qMul v1 (mkRat 18 5) else v1
  round2 v2

/-! ## Primary pattern phases -/

/-- The `combined` string: text fragments joined with `" | "` (lines 64 and 145). -/
def combinedOf (items : List String) : String := String.mk (joinBar items)

/-- Lines 65-105: the avamet variant's primary patterns, run in the source's
order against `combined`. -/
def avamet_primary (combined : String) : FieldMap :=
  let res : FieldMap := []
  let res := match reSearch reAvametTemp combined with
    | some caps => fmSet res Field.temperature (pyFloat (capStr caps 2))
    | none =>
      match reSearch reBareDegC combined with
      | some caps =>
        fmSet res Field.temperature (pyFloat ((pyOrStr (dictGet caps 1) (dictGet caps 2)).getD ""))
      | none => res
  let res := match reSearch reAvametHum combined with
    | some caps => fmSet res Field.humidity (pyFloat (capStr caps 2))
    | none => res
  let res := match reSearch reAvametWind combined with
    | some caps => fmSet res Field.wind_speed_kmh (avamet_wind_normalize (pyFloat (capStr caps 2)) (dictGet caps 3))
    | none => res
  let res := match reSearch reAvametRain combined with
    | some caps => fmSet res Field.rain_mm (pyFloat (capStr caps 2))
    | none => res
  let res := match reSearch reAvametTmax combined with
    | some caps => fmSet res Field.day_temp_max (pyFloat (capStr caps 2))
    | none => res
  let res := match reSearch reAvametTmin combined with
    | some caps => fmSet res Field.day_temp_min (pyFloat (capStr caps 2))
    | none => res
  let res := match reSearch reAvametMonth combined with
    | some caps => fmSet res Field.month_rain_mm (pyFloat (capStr caps 2))
    | none => res
  match reSearch reAvametYear combined with
  | some caps => fmSet res Field.year_rain_mm (pyFloat (capStr caps 2))
  | none => res

/-- Lines 146-177: the wx9 variant's primary patterns, in source order. -/
def wx9_primary (combined : String) : FieldMap :=
  let res : FieldMap := []
  let res := match reSearch reBareDegC combined with
    | some caps =>
      fmSet res Field.temperature (pyFloat ((pyOrStr (dictGet caps 1) (dictGet caps 2)).getD ""))
    | none => res
  let res := match reSearch reWx9Hum combined with
    | some caps => fmSet res Field.humidity (pyFloat (capStr caps 1))
    | none => res
  let res := match reSearch reWx9Wind combined with
    | some caps => fmSet res Field.wind_speed_kmh (wx9_wind_normalize (pyFloat (capStr caps 1)) (dictGet caps 2))
    | none => res
  let res := match reSearch reWx9Rain combined with
    | some caps => fmSet res Field.rain_mm (pyFloat (capStr caps 2))
    | none => res
  let res := match reSearch reWx9Tmax combined with
    | some caps => fmSet res Field.day_temp_max (pyFloat (capStr caps 1))
    | none => res
  let res := match reSearch reWx9Tmin combined with
    | some caps => fmSet res Field.day_temp_min (pyFloat (capStr caps 1))
    | none => res
  match reSearch reWx9MaxWind combined with
  | some caps => fmSet res Field.day_wind_max (pyFloat (capStr caps 1))
  | none => res

/-! ## Labeled fallback scan -/

/-- `res[f] = v` when a number was found (no already-set guard: the
humidity branches of lines 118-121 and 183-186). -/
def fbSetAlways (res : FieldMap) (f : Field) : Option Rat → FieldMap
  | some x => fmSet res f x
  | none => res

/-- `if v is not None and f not in res: res[f] = v` (the guarded branches). -/
def fbSetIfUnset (res : FieldMap) (f : Field) : Option Rat → FieldMap
  | some x => if fmHas res f then res else fmSet res f x
  | none => res

/-- One keyword rule of the fallback scan: the substring keywords tested
against the lower-cased label, the target field, and whether the assignment
is guarded by `f not in res`. -/
structure FbRule where
  keys : List String
  field : Field
  guarded : Bool
  deriving Repr

/-- Apply one rule to a `label : value` fragment. -/
def fbApplyRule (r : FbRule) (low right : String) (res : FieldMap) : FieldMap :=
  if r.keys.any (fun k => strContains low k) then
    if r.guarded then fbSetIfUnset res r.field (extract_number right)
    else fbSetAlways res r.field (extract_number right)
  else res

/-- Apply the rules in order (the successive `if` blocks of one loop body). -/
def fbApplyRules : List FbRule → String → String → FieldMap → FieldMap
  | [], _, _, res => res
  | r :: rest, low, right, res => fbApplyRules rest low right (fbApplyRule r low right res)

/-- One fragment of the fallback loop: require a colon, split once at it,
strip and lower-case the label, then run the keyword rules. -/
def fbScanStep (rules : List FbRule) (t : String) (res : FieldMap) : FieldMap :=
  if strContains t ":" then
    let parts := splitAtColon t.data
    let low := String.mk (toLowerL (pyStrip parts.1))
    let right := String.mk (pyStrip parts.2)
    fbApplyRules rules low right res
  else res

/-- The whole fallback loop over the fragments. -/
def fbScan (rules : List FbRule) : List String → FieldMap → FieldMap
  | [], res => res
  | t :: rest, res => fbScan rules rest (fbScanStep rules t res)

/-- Lines 114-133: avamet fallback rules in source order.  Note the
humidity assignment is unguarded while the other three are guarded. -/
def avametFbRules : List FbRule :=
  [⟨["hum", "humedad", "humidity"], Field.humidity, false⟩,
   ⟨["temp", "temperatura"], Field.temperature, true⟩,
   ⟨["wind", "viento"], Field.wind_speed_kmh, true⟩,
   ⟨["rain", "lluvia"], Field.rain_mm, true⟩]

/-- Lines 179-198: wx9 fallback rules in source order (same guard shape;
different humidity keywords, `precip` added to rain). -/
def wx9FbRules : List FbRule :=
  [⟨["humidity", "humedad"], Field.humidity, false⟩,
   ⟨["temp", "temperatura"], Field.temperature, true⟩,
   ⟨["wind", "viento"], Field.wind_speed_kmh, true⟩,
   ⟨["rain", "lluvia", "precip"], Field.rain_mm, true⟩]

/-- The avamet fallback scan (lines 114-133). -/
def avamet_fallback (items : List String) (res : FieldMap) : FieldMap :=
  fbScan avametFbRules items res

/-- The wx9 fallback scan (lines 179-198). -/
def wx9_fallback (items : List String) (res : FieldMap) : FieldMap :=
  fbScan wx9FbRules items res

/-- `parse_avamet` (lines 55-134) on the flattened text fragments. -/
def parse_avamet (text_items : List String) : FieldMap :=
  avamet_fallback text_items (avamet_primary (combinedOf text_items))

/-- `parse_wx9` (lines 137-199) on the flattened text fragments. -/
def parse_wx9 (text_items : List String) : FieldMap :=
  wx9_fallback text_items (wx9_primary (combinedOf text_items))

/-! ## Station configuration, snapshots, cache (main.py lines 15-39, 203-233) -/

/-- A station configuration dict.  `tipo` is optional because
`scrape_station` reads it with `station.get("tipo", "avamet")`; the other
keys are always present on registered stations. -/
structure StationCfg where
  id : String
  nombre : String
  url : String
  tipo : Option String
  deriving DecidableEq

/-- A scrape result: either the error dict `{"error": ..., "url": ...}`
built on fetch failure (line 215) or the normalized output dict of lines
225-231. -/
inductive Snapshot where
  | err (error : String) (url : String)
  | ok (id : String) (nombre : String) (url : String) (fetched_at : Int) (datos : FieldMap)
  deriving DecidableEq

/-- One cache entry `{"ts": now, "data": data}`. -/
structure CacheEntry where
  ts : Int
  data : Snapshot
  deriving DecidableEq

/-- The in-memory cache `CACHE` keyed by station id. -/
abbrev Cache := List (String × CacheEntry)

/-- The station registry `ESTACIONES` keyed by station id. -/
abbrev Registry := List (String × StationCfg)

/-- `CACHE_TTL = 120` seconds (line 39). -/
def CACHE_TTL : Int := 120

/-- The external fetch-and-flatten oracle: `requests.get(url, timeout=10)`
followed by `raise_for_status()` and the BeautifulSoup text walk.  An
`Except.error` covers any network error, timeout or non-success HTTP
status (everything the source's `except Exception` catches); an
`Except.ok` carries the flattened text fragments of the fetched page. -/
abbrev FetchFn := String → Except String (List String)

/-- The result of `scrape_station`, together with the updated cache and
whether the fetch oracle was consulted (instrumentation only; it does not
influence the computation). -/
structure ScrapeOut where
  snapshot : Snapshot
  cache : Cache
  fetched : Bool
  deriving DecidableEq

/-- main.py lines 203-233, `scrape_station`: cache check against the TTL,
fetch on miss, error snapshot on fetch failure, extractor dispatch on
`station.get("tipo", "avamet")`, and cache update. -/
def scrape_station (fetch : FetchFn) (now : Int) (cache : Cache) (station : StationCfg) :
    ScrapeOut :=
  let sid := station.id
  let hit := match dictGet cache sid with
    | some e => if now - e.ts < CACHE_TTL then some e.data else none
    | none => none
  match hit with
  | some data => ⟨data, cache, false⟩
  | none =>
    match fetch station.url with
    | Except.error e =>
      let data := Snapshot.err ("fetch_error: " ++ e) station.url
      ⟨data, dictSet cache sid ⟨now, data⟩, true⟩
    | Except.ok text_items =>
      let tipo := station.tipo.getD "avamet"
      let parsed := if tipo = "avamet" then parse_avamet text_items else parse_wx9 text_items
      let out := Snapshot.ok sid station.nombre station.url now parsed
      ⟨out, dictSet cache sid ⟨now, out⟩, true⟩

/-! ## View projections (main.py lines 250-308) -/

/-- `data.get("datos", {})`: the error dict has no `datos` key, so the
default empty mapping is returned for it. -/
def snapshotDatos : Snapshot → FieldMap
  | Snapshot.err _ _ => []
  | Snapshot.ok _ _ _ _ d => d

/-- `data.get("fetched_at")`. -/
def snapshotFetchedAt : Snapshot → Option Int
  | Snapshot.err _ _ => none
  | Snapshot.ok _ _ _ t _ => some t

/-- `data.get("error")`: present only on the error snapshot. -/
def snapshotError : Snapshot → Option String
  | Snapshot.err e _ => some e
  | Snapshot.ok _ _ _ _ _ => none

/-- Python `a or b` on optional floats: `None` and `0.0` are falsy. -/
def pyOrQ : Option Rat → Option Rat → Option Rat
  | some v, b => if v = 0 then b else some v
  | none, b => b

/-- The now-projection dict shape (lines 255-261). -/
structure AhoraProj where
  temperature : Option Rat
  humidity : Option Rat
  wind_kmh : Option Rat
  rain_mm : Option Rat
  fetched_at : Option Int
  deriving DecidableEq

/-- Lines 255-261: the now-projection over a snapshot. -/
def ahora_projection (data : Snapshot) : AhoraProj :=
  let datos := snapshotDatos data
  ⟨fmGet datos Field.temperature, fmGet datos Field.humidity,
   fmGet datos Field.wind_speed_kmh, fmGet datos Field.rain_mm,
   snapshotFetchedAt data⟩

/-- The day-projection dict shape (lines 271-277). -/
structure DiaProj where
  day_max_temp : Option Rat
  day_min_temp : Option Rat
  day_max_wind : Option Rat
  rain_today : Option Rat
  fetched_at : Option Int
  deriving DecidableEq

/-- Lines 271-277: the day-projection; note `rain_today` is
`datos.get("rain_today") or datos.get("rain_mm")`. -/
def dia_projection (data : Snapshot) : DiaProj :=
  let datos := snapshotDatos data
  ⟨fmGet datos Field.day_temp_max, fmGet datos Field.day_temp_min,
   fmGet datos Field.day_wind_max,
   pyOrQ (fmGet datos Field.rain_today) (fmGet datos Field.rain_mm),
   snapshotFetchedAt data⟩

/-- The month-projection dict shape (lines 287-292). -/
structure MesProj where
  month_rain_mm : Option Rat
  month_max_temp : Option Rat
  month_min_temp : Option Rat
  fetched_at : Option Int
  deriving DecidableEq

/-- Lines 287-292: the month-projection. -/
def mes_projection (data : Snapshot) : MesProj :=
  let datos := snapshotDatos data
  ⟨fmGet datos Field.month_rain_mm, fmGet datos Field.month_temp_max,
   fmGet datos Field.month_temp_min, snapshotFetchedAt data⟩

/-- The year-projection dict shape (lines 302-307). -/
structure AnioProj where
  year_rain_mm : Option Rat
  year_max_temp : Option Rat
  year_min_temp : Option Rat
  fetched_at : Option Int
  deriving DecidableEq

/-- Lines 302-307: the year-projection. -/
def anio_projection (data : Snapshot) : AnioProj :=
  let datos := snapshotDatos data
  ⟨fmGet datos Field.year_rain_mm, fmGet datos Field.year_temp_max,
   fmGet datos Field.year_temp_min, snapshotFetchedAt data⟩

/-! ## HTTP endpoints (main.py lines 237-324) -/

/-- Exceptions a handler can raise: FastAPI `HTTPException` and Python
`AttributeError`. -/
inductive PyExn where
  | httpException (status : Nat) (detail : String)
  | attributeError (msg : String)
  deriving DecidableEq

/-- `JSONResponse(content=body)`: a response object with status 200. -/
structure JSONResponse (α : Type) where
  body : α
  deriving DecidableEq

/-- The module-level mutable state: the registry and the cache. -/
structure World where
  estaciones : Registry
  cache : Cache
  deriving DecidableEq

/-- The initial `ESTACIONES` dict (lines 15-34). -/
def ESTACIONES : Registry :=
  [("port", ⟨"port", "Xàbia - Port",
             "https://www.meteoxabia.com/estacions/port/avamet.htm", some "avamet"⟩),
   ("lluca", ⟨"lluca", "Xàbia - Lluca/Rafalet",
              "https://www.meteoxabia.com/estacions/lluca/wx9.html", some "wx9"⟩),
   ("faro", ⟨"faro", "Xàbia - Faro Cabo de la Nao",
             "https://www.meteoxabia.com/estacions/farolanao/wx9.html", some "wx9"⟩)]

/-- Lines 242-248, `GET /api/estacion/{id}/completo`: 404 on unknown id,
otherwise the scraped snapshot wrapped in a `JSONResponse`. -/
def api_estacion_completo (fetch : FetchFn) (now : Int) (w : World) (station_id : String) :
    Except PyExn (JSONResponse Snapshot × World) :=
  match dictGet w.estaciones station_id with
  | none => Except.error (PyExn.httpException 404 "Estación no encontrada")
  | some s =>
    let r := scrape_station fetch now w.cache s
    Except.ok (⟨r.snapshot⟩, ⟨w.estaciones, r.cache⟩)

/-- Lines 250-262, `GET /api/estacion/{id}/ahora`.  FastAPI's route
decorator returns the handler function unchanged, so
`api_estacion_completo` has no `__wrapped__` attribute and the handler
takes the `else` branch, calling `api_estacion_completo(station_id)`
directly.  That call returns a `JSONResponse` object, and the subsequent
`obj.get("datos", {})` is an attribute access on the response object,
which has no `get` method: Python raises `AttributeError`.  The
projection code below that line (the intended now-projection,
`ahora_projection`) is therefore unreachable on the success path. -/
def api_estacion_ahora (fetch : FetchFn) (now : Int) (w : World) (station_id : String) :
    Except PyExn (JSONResponse AhoraProj × World) :=
  match api_estacion_completo fetch now w station_id with
  | Except.error e => Except.error e
  | Except.ok (_obj, _w2) =>
    Except.error (PyExn.attributeError "JSONResponse object has no attribute get")

/-- Lines 264-278, `GET /api/estacion/{id}/dia`. -/
def api_estacion_dia (fetch : FetchFn) (now : Int) (w : World) (station_id : String) :
    Except PyExn (JSONResponse DiaProj × World) :=
  match dictGet w.estaciones station_id with
  | none => Except.error (PyExn.httpException 404 "Estación no encontrada")
  | some s =>
    let r := scrape_station fetch now w.cache s
    Except.ok (⟨dia_projection r.snapshot⟩, ⟨w.estaciones, r.cache⟩)

/-- Lines 280-293, `GET /api/estacion/{id}/mes`. -/
def api_estacion_mes (fetch : FetchFn) (now : Int) (w : World) (station_id : String) :
    Except PyExn (JSONResponse MesProj × World) :=
  match dictGet w.estaciones station_id with
  | none => Except.error (PyExn.httpException 404 "Estación no encontrada")
  | some s =>
    let r := scrape_station fetch now w.cache s
    Except.ok (⟨mes_projection r.snapshot⟩, ⟨w.estaciones, r.cache⟩)

/-- Lines 295-308, `GET /api/estacion/{id}/anio`. -/
def api_estacion_anio (fetch : FetchFn) (now : Int) (w : World) (station_id : String) :
    Except PyExn (JSONResponse AnioProj × World) :=
  match dictGet w.estaciones station_id with
  | none => Except.error (PyExn.httpException 404 "Estación no encontrada")
  | some s =>
    let r := scrape_station fetch now w.cache s
    Except.ok (⟨anio_projection r.snapshot⟩, ⟨w.estaciones, r.cache⟩)

/-- The request body of `POST /api/estacion/add`; each key may be absent. -/
structure AddItem where
  id : Option String
  nombre : Option String
  url : Option String
  tipo : Option String
  deriving DecidableEq

/-- Lines 312-324, `POST /api/estacion/add`: 400 when id, nombre or url is
missing; otherwise registers/overwrites the station (tipo defaulting to
"avamet") and returns the stored configuration.  The cache is not
touched. -/
def api_add_station (w : World) (item : AddItem) :
    Except PyExn (JSONResponse StationCfg × World) :=
  match item.id, item.nombre, item.url with
  | some sid, some nom, some u =>
    let cfg : StationCfg := ⟨sid, nom, u, some (item.tipo.getD "avamet")⟩
    Except.ok (⟨cfg⟩, ⟨dictSet w.estaciones sid cfg, w.cache⟩)
  | _, _, _ => Except.error (PyExn.httpException 400 "Faltan campos id/nombre/url")

/-! ## Helper lemmas -/

theorem dictGet_dictSet_self {κ α : Type} [DecidableEq κ] (m : List (κ × α)) (k : κ) (v : α) :
    dictGet (dictSet m k v) k = some v := by
  induction m with
  | nil => simp [dictGet, dictSet]
  | cons p rest ih =>
    by_cases h : p.1 = k
    · simp [dictGet, dictSet, h]
    · simp [dictGet, dictSet, h, ih]

theorem dictGet_dictSet_ne {κ α : Type} [DecidableEq κ] (m : List (κ × α)) (k k2 : κ) (v : α)
    (h : k2 ≠ k) : dictGet (dictSet m k v) k2 = dictGet m k2 := by
  have hk : ¬ k = k2 := fun hh => h hh.symm
  induction m with
  | nil => simp [dictGet, dictSet, hk]
  | cons p rest ih =>
    by_cases hp : p.1 = k
    · simp [dictGet, dictSet, hp, hk]
    · simp [dictGet, dictSet, hp, ih]

theorem fmGet_fmSet_ne (res : FieldMap) (g f : Field) (v : Rat) (h : f ≠ g) :
    fmGet (fmSet res g v) f = fmGet res f := by
  unfold fmGet fmSet
  exact dictGet_dictSet_ne res g f v h

theorem fbSetAlways_get_ne (res : FieldMap) (g f : Field) (v : Option Rat) (h : f ≠ g) :
    fmGet (fbSetAlways res g v) f = fmGet res f := by
  cases v with
  | none => rfl
  | some x => exact fmGet_fmSet_ne res g f x h

theorem fbSetIfUnset_get_ne (res : FieldMap) (g f : Field) (v : Option Rat) (h : f ≠ g) :
    fmGet (fbSetIfUnset res g v) f = fmGet res f := by
  cases v with
  | none => rfl
  | some x =>
    simp only [fbSetIfUnset]
    by_cases hh : fmHas res g = true
    · rw [if_pos hh]
    · rw [if_neg hh]
      exact fmGet_fmSet_ne res g f x h

theorem fbSetIfUnset_of_has (res : FieldMap) (f : Field) (v : Option Rat)
    (h : fmHas res f = true) : fbSetIfUnset res f v = res := by
  cases v with
  | none => rfl
  | some x =>
    simp only [fbSetIfUnset]
    rw [if_pos h]

theorem fbApplyRule_get (r : FbRule) (low right : String) (res : FieldMap) (f : Field)
    (hr : r.field = f → r.guarded = true) (h : fmHas res f = true) :
    fmGet (fbApplyRule r low right res) f = fmGet res f := by
  unfold fbApplyRule
  by_cases hcond : (r.keys.any fun k => strContains low k) = true
  · rw [if_pos hcond]
    by_cases hf : r.field = f
    · rw [hr hf, if_pos rfl, hf, fbSetIfUnset_of_has res f _ h]
    · have hfne : f ≠ r.field := fun hh => hf hh.symm
      cases hgd : r.guarded
      · simp only [Bool.false_eq_true, if_false]
        exact fbSetAlways_get_ne res r.field f _ hfne
      · simp only [if_true]
        exact fbSetIfUnset_get_ne res r.field f _ hfne
  · rw [if_neg hcond]

theorem fbApplyRules_get (rules : List FbRule) (low right : String) (res : FieldMap) (f : Field)
    (hr : ∀ r ∈ rules, r.field = f → r.guarded = true) (h : fmHas res f = true) :
    fmGet (fbApplyRules rules low right res) f = fmGet res f := by
  induction rules generalizing res with
  | nil => rfl
  | cons r rest ih =>
    have h1 : fmGet (fbApplyRule r low right res) f = fmGet res f :=
      fbApplyRule_get r low right res f (hr r (List.mem_cons_self r rest)) h
    have h2 : fmHas (fbApplyRule r low right res) f = true := by
      unfold fmHas
      rw [h1]
      exact h
    calc fmGet (fbApplyRules (r :: rest) low right res) f
        = fmGet (fbApplyRules rest low right (fbApplyRule r low right res)) f := rfl
      _ = fmGet (fbApplyRule r low right res) f :=
          ih (fbApplyRule r low right res) (fun q hq => hr q (List.mem_cons_of_mem r hq)) h2
      _ = fmGet res f := h1

theorem fbScanStep_get (rules : List FbRule) (t : String) (res : FieldMap) (f : Field)
    (hr : ∀ r ∈ rules, r.field = f → r.guarded = true) (h : fmHas res f = true) :
    fmGet (fbScanStep rules t res) f = fmGet res f := by
  unfold fbScanStep
  by_cases hc : strContains t ":" = true
  · rw [if_pos hc]
    exact fbApplyRules_get rules _ _ res f hr h
  · rw [if_neg hc]

theorem fbScan_get (rules : List FbRule) (items : List String) (res : FieldMap) (f : Field)
    (hr : ∀ r ∈ rules, r.field = f → r.guarded = true) (h : fmHas res f = true) :
    fmGet (fbScan rules items res) f = fmGet res f := by
  induction items generalizing res with
  | nil => rfl
  | cons t rest ih =>
    have h1 : fmGet (fbScanStep rules t res) f = fmGet res f := fbScanStep_get rules t res f hr h
    have h2 : fmHas (fbScanStep rules t res) f = true := by
      unfold fmHas
      rw [h1]
      exact h
    calc fmGet (fbScan rules (t :: rest) res) f
        = fmGet (fbScan rules rest (fbScanStep rules t res)) f := rfl
      _ = fmGet (fbScanStep rules t res) f := ih (fbScanStep rules t res) h2
      _ = fmGet res f := h1

theorem scrape_cache_hit (fetch : FetchFn) (now : Int) (cache : Cache) (station : StationCfg)
    (e : CacheEntry) (hc : dictGet cache station.id = some e) (hlt : now - e.ts < CACHE_TTL) :
    scrape_station fetch now cache station = ⟨e.data, cache, false⟩ := by
  simp [scrape_station, hc, hlt]

theorem scrape_cache_expired (fetch : FetchFn) (now : Int) (cache : Cache) (station : StationCfg)
    (e : CacheEntry) (hc : dictGet cache station.id = some e) (hge : CACHE_TTL ≤ now - e.ts) :
    (scrape_station fetch now cache station).fetched = true := by
  have hnot : ¬ (now - e.ts < CACHE_TTL) := not_lt.mpr hge
  simp only [scrape_station, hc, if_neg hnot]
  rcases h2 : fetch station.url with msg | items <;> simp

theorem scrape_miss_error (fetch : FetchFn) (now : Int) (cache : Cache) (station : StationCfg)
    (msg : String) (hmiss : dictGet cache station.id = none)
    (hf : fetch station.url = Except.error msg) :
    scrape_station fetch now cache station =
      ⟨Snapshot.err ("fetch_error: " ++ msg) station.url,
       dictSet cache station.id ⟨now, Snapshot.err ("fetch_error: " ++ msg) station.url⟩, true⟩ := by
  simp [scrape_station, hmiss, hf]

theorem scrape_miss_ok (fetch : FetchFn) (now : Int) (cache : Cache) (station : StationCfg)
    (items : List String) (hmiss : dictGet cache station.id = none)
    (hf : fetch station.url = Except.ok items) :
    scrape_station fetch now cache station =
      ⟨Snapshot.ok station.id station.nombre station.url now
         (if station.tipo.getD "avamet" = "avamet" then parse_avamet items else parse_wx9 items),
       dictSet cache station.id ⟨now, Snapshot.ok station.id station.nombre station.url now
         (if station.tipo.getD "avamet" = "avamet" then parse_avamet items else parse_wx9 items)⟩,
       true⟩ := by
  simp [scrape_station, hmiss, hf]

/-- Primary-phase values survive the fallback scan for a field all of whose
fallback rules carry the already-set guard. -/
theorem parse_preserves (rules : List FbRule) (primary : FieldMap) (items : List String)
    (f : Field) (v : Rat)
    (hr : ∀ r ∈ rules, r.field = f → r.guarded = true)
    (h : fmGet primary f = some v) :
    fmGet (fbScan rules items primary) f = some v := by
  have hhas : fmHas primary f = true := by
    unfold fmHas
    rw [h]
    rfl
  rw [fbScan_get rules items primary f hr hhas]
  exact h

/-! ## The claims -/

set_option maxRecDepth 8000

/-- C1 (amended): in both extractor variants the labeled fallback scan never
overwrites temperature, wind_speed_kmh or rain_mm once a primary pattern has
set them (those fallback assignments are guarded by `not in res`); the
humidity fallback assignment carries no such guard, so humidity is the one
field the fallback scan does overwrite (see the counterexample). -/
theorem C1_first_match_wins_amended (items : List String) (v : Rat) :
    (fmGet (avamet_primary (combinedOf items)) Field.temperature = some v →
       fmGet (parse_avamet items) Field.temperature = some v) ∧
    (fmGet (avamet_primary (combinedOf items)) Field.wind_speed_kmh = some v →
       fmGet (parse_avamet items) Field.wind_speed_kmh = some v) ∧
    (fmGet (avamet_primary (combinedOf items)) Field.rain_mm = some v →
       fmGet (parse_avamet items) Field.rain_mm = some v) ∧
    (fmGet (wx9_primary (combinedOf items)) Field.temperature = some v →
       fmGet (parse_wx9 items) Field.temperature = some v) ∧
    (fmGet (wx9_primary (combinedOf items)) Field.wind_speed_kmh = some v →
       fmGet (parse_wx9 items) Field.wind_speed_kmh = some v) ∧
    (fmGet (wx9_primary (combinedOf items)) Field.rain_mm = some v →
       fmGet (parse_wx9 items) Field.rain_mm = some v) := by
  refine ⟨?_, ?_, ?_, ?_, ?_, ?_⟩ <;> intro h
  · exact parse_preserves avametFbRules _ items Field.temperature v (by decide) h
  · exact parse_preserves avametFbRules _ items Field.wind_speed_kmh v (by decide) h
  · exact parse_preserves avametFbRules _ items Field.rain_mm v (by decide) h
  · exact parse_preserves wx9FbRules _ items Field.temperature v (by decide) h
  · exact parse_preserves wx9FbRules _ items Field.wind_speed_kmh v (by decide) h
  · exact parse_preserves wx9FbRules _ items Field.rain_mm v (by decide) h

/-- Witness for C1: on the fragment `"Viento: 99"` the avamet primary wind
pattern fires with value 99 and the extractor's output keeps it. -/
theorem C1_first_match_wins_amended_witness :
    fmGet (parse_avamet ["Viento: 99"]) Field.wind_speed_kmh = some 99 :=
  (C1_first_match_wins_amended ["Viento: 99"] 99).2.1 (by decide)

/-- C1 counterexample: the claim as stated is false for humidity.  In the
avamet variant the primary humidity pattern sets 50 from `"Hum 50"`, and the
fallback scan then overwrites it with 70 from `"humedad: 70"`; the wx9
variant behaves the same on `"Humidity 50 %"` / `"Humedad: 70"`. -/
theorem C1_fallback_overwrites_humidity_counterexample :
    fmGet (avamet_primary (combinedOf ["Hum 50", "humedad: 70"])) Field.humidity = some 50 ∧
    fmGet (parse_avamet ["Hum 50", "humedad: 70"]) Field.humidity = some 70 ∧
    fmGet (wx9_primary (combinedOf ["Humidity 50 %", "Humedad: 70"])) Field.humidity = some 50 ∧
    fmGet (parse_wx9 ["Humidity 50 %", "Humedad: 70"]) Field.humidity = some 70 :=
  ⟨by decide, by decide, by decide, by decide⟩

/-- C2: for every registered station id the `/ahora` handler raises
`AttributeError` instead of returning the now-projection, because it calls
the `/completo` handler (FastAPI's decorator returns the function unchanged,
so `__wrapped__` is absent) and then invokes `.get` on the returned
`JSONResponse` object. -/
theorem C2_ahora_raises_attribute_error (fetch : FetchFn) (now : Int) (w : World)
    (station_id : String) (s : StationCfg)
    (hreg : dictGet w.estaciones station_id = some s) :
    api_estacion_ahora fetch now w station_id =
      Except.error (PyExn.attributeError "JSONResponse object has no attribute get") := by
  simp [api_estacion_ahora, api_estacion_completo, hreg]

/-- Witness for C2: the initially registered station `"port"` triggers the
`AttributeError`. -/
theorem C2_ahora_raises_attribute_error_witness :
    api_estacion_ahora (fun _ => Except.error "net down") 0 ⟨ESTACIONES, []⟩ "port" =
      Except.error (PyExn.attributeError "JSONResponse object has no attribute get") :=
  C2_ahora_raises_attribute_error _ 0 _ "port"
    ⟨"port", "Xàbia - Port", "https://www.meteoxabia.com/estacions/port/avamet.htm",
     some "avamet"⟩ (by decide)

/-- C3 counterexample: on `["Humitat: 61", "Vent: 12 km/h"]` neither variant
sets wind_speed_kmh (the label `"vent"` contains none of the wind keywords
`"wind"`/`"viento"`), and the wx9 variant does not even set humidity (its
keywords are `"humidity"`/`"humedad"`, not contained in `"humitat"`). -/
theorem C3_fallback_only_fields_counterexample :
    fmGet (parse_avamet ["Humitat: 61", "Vent: 12 km/h"]) Field.wind_speed_kmh = none ∧
    fmGet (parse_wx9 ["Humitat: 61", "Vent: 12 km/h"]) Field.wind_speed_kmh = none ∧
    fmGet (parse_wx9 ["Humitat: 61", "Vent: 12 km/h"]) Field.humidity = none :=
  ⟨by decide, by decide, by decide⟩

/-- C3 (amended): on the fragments `["Humitat: 61", "Vent: 12 km/h"]`, on
which no primary pattern matches, the avamet fallback scan yields exactly
`humidity = 61.0` (and no wind_speed_kmh), while the wx9 extractor yields
the empty field map. -/
theorem C3_fallback_only_fields_amended :
    parse_avamet ["Humitat: 61", "Vent: 12 km/h"] = [(Field.humidity, 61)] ∧
    parse_wx9 ["Humitat: 61", "Vent: 12 km/h"] = [] :=
  ⟨by decide, by decide⟩

/-- C4 (amended): on a successful fetch the extractor is selected by
`station.get("tipo", "avamet")` compared against `"avamet"`: an absent tipo
or the value `"avamet"` selects the avamet extractor, while every other
present value — recognized or not — selects the wx9 extractor. -/
theorem C4_tipo_dispatch_amended (fetch : FetchFn) (now : Int) (cache : Cache)
    (station : StationCfg) (items : List String)
    (hmiss : dictGet cache station.id = none)
    (hok : fetch station.url = Except.ok items) :
    ((station.tipo = none ∨ station.tipo = some "avamet") →
       (scrape_station fetch now cache station).snapshot =
         Snapshot.ok station.id station.nombre station.url now (parse_avamet items)) ∧
    (∀ t, station.tipo = some t → t ≠ "avamet" →
       (scrape_station fetch now cache station).snapshot =
         Snapshot.ok station.id station.nombre station.url now (parse_wx9 items)) := by
  constructor
  · intro hcase
    rw [scrape_miss_ok fetch now cache station items hmiss hok]
    rcases hcase with hnone | hav
    · simp [hnone]
    · simp [hav]
  · intro t ht hne
    rw [scrape_miss_ok fetch now cache station items hmiss hok]
    simp [ht, hne]

/-- Witness for C4: a station with the unrecognized tipo `"foo"` is parsed
with the wx9 extractor. -/
theorem C4_tipo_dispatch_amended_witness :
    (scrape_station (fun _ => Except.ok ["Humitat: 61"]) 0 []
        ⟨"x", "X", "u", some "foo"⟩).snapshot =
      Snapshot.ok "x" "X" "u" 0 (parse_wx9 ["Humitat: 61"]) :=
  (C4_tipo_dispatch_amended _ 0 [] _ _ rfl rfl).2 "foo" rfl (by decide)

/-- C4 counterexample: the claim as stated predicts the avamet extractor for
the unrecognized tipo `"foo"`, but the scrape stores the wx9 result: on the
fragments `["Humitat: 61"]` the stored field map is empty, whereas the
avamet extractor would have produced `humidity = 61`. -/
theorem C4_unrecognized_tipo_counterexample :
    (scrape_station (fun _ => Except.ok ["Humitat: 61"]) 0 []
        ⟨"x", "X", "u", some "foo"⟩).snapshot =
      Snapshot.ok "x" "X" "u" 0 [] ∧
    parse_avamet ["Humitat: 61"] = [(Field.humidity, 61)] :=
  ⟨by decide, by decide⟩

/-- C5 (amended): registering `t1` with an unreachable URL and requesting
`/completo` yields a 200 `JSONResponse` (no exception) whose body is the
error snapshot itself: the `error` and `url` keys sit at the top level of
the body, and the body has no `datos` key at all (its datos projection is
the default empty mapping). -/
theorem C5_add_then_completo_error (fetch : FetchFn) (now : Int) (reg : Registry) (msg : String)
    (hf : fetch "http://example.invalid" = Except.error msg) :
    api_add_station ⟨reg, []⟩ ⟨some "t1", some "Test", some "http://example.invalid", some "wx9"⟩ =
      Except.ok (⟨⟨"t1", "Test", "http://example.invalid", some "wx9"⟩⟩,
        ⟨dictSet reg "t1" ⟨"t1", "Test", "http://example.invalid", some "wx9"⟩, []⟩) ∧
    api_estacion_completo fetch now
        ⟨dictSet reg "t1" ⟨"t1", "Test", "http://example.invalid", some "wx9"⟩, []⟩ "t1" =
      Except.ok (⟨Snapshot.err ("fetch_error: " ++ msg) "http://example.invalid"⟩,
        ⟨dictSet reg "t1" ⟨"t1", "Test", "http://example.invalid", some "wx9"⟩,
         [("t1", ⟨now, Snapshot.err ("fetch_error: " ++ msg) "http://example.invalid"⟩)]⟩) ∧
    snapshotError (Snapshot.err ("fetch_error: " ++ msg) "http://example.invalid") =
      some ("fetch_error: " ++ msg) ∧
    snapshotDatos (Snapshot.err ("fetch_error: " ++ msg) "http://example.invalid") = [] := by
  refine ⟨rfl, ?_, rfl, rfl⟩
  have hreg := dictGet_dictSet_self reg "t1"
    (⟨"t1", "Test", "http://example.invalid", some "wx9"⟩ : StationCfg)
  simp only [api_estacion_completo, hreg]
  rw [scrape_miss_error fetch now [] _ msg rfl hf]
  rfl

/-- Witness for C5: a concrete always-failing fetch oracle. -/
theorem C5_add_then_completo_error_witness :
    api_estacion_completo (fun _ => Except.error "unreachable") 7
        ⟨dictSet [] "t1" ⟨"t1", "Test", "http://example.invalid", some "wx9"⟩, []⟩ "t1" =
      Except.ok (⟨Snapshot.err "fetch_error: unreachable" "http://example.invalid"⟩,
        ⟨dictSet [] "t1" ⟨"t1", "Test", "http://example.invalid", some "wx9"⟩,
         [("t1", ⟨7, Snapshot.err "fetch_error: unreachable" "http://example.invalid"⟩)]⟩) :=
  (C5_add_then_completo_error (fun _ => Except.error "unreachable") 7 [] "unreachable" rfl).2.1

/-- C5 counterexample: the claim as stated is false, because the 200
response body for the registered unreachable station has no `datos` field:
the error entry is the top level of the body, and the body's datos
projection is the default empty mapping (which cannot contain an error
entry). -/
theorem C5_completo_datos_counterexample :
    api_estacion_completo (fun _ => Except.error "getaddrinfo failed") 0
        ⟨[("t1", ⟨"t1", "Test", "http://example.invalid", some "wx9"⟩)], []⟩ "t1" =
      Except.ok (⟨Snapshot.err "fetch_error: getaddrinfo failed" "http://example.invalid"⟩,
        ⟨[("t1", ⟨"t1", "Test", "http://example.invalid", some "wx9"⟩)],
         [("t1", ⟨0, Snapshot.err "fetch_error: getaddrinfo failed" "http://example.invalid"⟩)]⟩) ∧
    snapshotDatos (Snapshot.err "fetch_error: getaddrinfo failed" "http://example.invalid") = [] ∧
    snapshotError (Snapshot.err "fetch_error: getaddrinfo failed" "http://example.invalid") =
      some "fetch_error: getaddrinfo failed" :=
  ⟨rfl, rfl, rfl⟩

/-- C6: with a cache entry for the station's id, a call strictly less than
120 seconds after `cached_at` returns the cached snapshot unchanged, leaves
the cache as it was and never consults the fetch oracle; a call 120 seconds
or later consults the fetch oracle. -/
theorem C6_cache_freshness (fetch : FetchFn) (now : Int) (cache : Cache) (station : StationCfg)
    (e : CacheEntry) (hc : dictGet cache station.id = some e) :
    (now - e.ts < 120 → scrape_station fetch now cache station = ⟨e.data, cache, false⟩) ∧
    (120 ≤ now - e.ts → (scrape_station fetch now cache station).fetched = true) :=
  ⟨fun h => scrape_cache_hit fetch now cache station e hc h,
   fun h => scrape_cache_expired fetch now cache station e hc h⟩

/-- Witness for C6: a hit 10 seconds after caching and a refetch 500 seconds
after caching. -/
theorem C6_cache_freshness_witness :
    scrape_station (fun _ => Except.error "x") 10 [("s", ⟨0, Snapshot.err "e" "u"⟩)]
        ⟨"s", "N", "u", none⟩ =
      ⟨Snapshot.err "e" "u", [("s", ⟨0, Snapshot.err "e" "u"⟩)], false⟩ ∧
    (scrape_station (fun _ => Except.error "x") 500 [("s", ⟨0, Snapshot.err "e" "u"⟩)]
        ⟨"s", "N", "u", none⟩).fetched = true :=
  ⟨(C6_cache_freshness _ 10 [("s", ⟨0, Snapshot.err "e" "u"⟩)] ⟨"s", "N", "u", none⟩
      ⟨0, Snapshot.err "e" "u"⟩ (by decide)).1 (by decide),
   (C6_cache_freshness _ 500 [("s", ⟨0, Snapshot.err "e" "u"⟩)] ⟨"s", "N", "u", none⟩
      ⟨0, Snapshot.err "e" "u"⟩ (by decide)).2 (by decide)⟩

/-- C7: a failed fetch produces the error snapshot `{error, url}`, stores it
in the cache under the current timestamp, and every later call within the
TTL returns that same error snapshot without consulting the fetch oracle
again. -/
theorem C7_error_snapshot_cached (fetch : FetchFn) (now : Int) (cache : Cache)
    (station : StationCfg) (msg : String)
    (hmiss : dictGet cache station.id = none)
    (hf : fetch station.url = Except.error msg) :
    scrape_station fetch now cache station =
      ⟨Snapshot.err ("fetch_error: " ++ msg) station.url,
       dictSet cache station.id ⟨now, Snapshot.err ("fetch_error: " ++ msg) station.url⟩,
       true⟩ ∧
    (∀ (fetch2 : FetchFn) (now2 : Int), now2 - now < 120 →
       scrape_station fetch2 now2
           (dictSet cache station.id ⟨now, Snapshot.err ("fetch_error: " ++ msg) station.url⟩)
           station =
         ⟨Snapshot.err ("fetch_error: " ++ msg) station.url,
          dictSet cache station.id ⟨now, Snapshot.err ("fetch_error: " ++ msg) station.url⟩,
          false⟩) := by
  constructor
  · exact scrape_miss_error fetch now cache station msg hmiss hf
  · intro fetch2 now2 hlt
    exact scrape_cache_hit fetch2 now2 _ station
      ⟨now, Snapshot.err ("fetch_error: " ++ msg) station.url⟩
      (dictGet_dictSet_self cache station.id _) hlt

/-- Witness for C7: a failing fetch at time 0 and a cache hit at time 50
with a different oracle. -/
theorem C7_error_snapshot_cached_witness :
    scrape_station (fun _ => Except.error "boom") 0 [] ⟨"s", "N", "u", none⟩ =
      ⟨Snapshot.err "fetch_error: boom" "u",
       [("s", ⟨0, Snapshot.err "fetch_error: boom" "u"⟩)], true⟩ ∧
    scrape_station (fun _ => Except.error "other") 50
        [("s", ⟨0, Snapshot.err "fetch_error: boom" "u"⟩)] ⟨"s", "N", "u", none⟩ =
      ⟨Snapshot.err "fetch_error: boom" "u",
       [("s", ⟨0, Snapshot.err "fetch_error: boom" "u"⟩)], false⟩ :=
  ⟨(C7_error_snapshot_cached (fun _ => Except.error "boom") 0 [] ⟨"s", "N", "u", none⟩ "boom"
      rfl rfl).1,
   (C7_error_snapshot_cached (fun _ => Except.error "boom") 0 [] ⟨"s", "N", "u", none⟩ "boom"
      rfl rfl).2 (fun _ => Except.error "other") 50 (by decide)⟩

/-- C8 (amended): the wx9 variant multiplies a matched m/s value by 3.6 and
a matched mph value by 1.60934 and rounds to two decimals, with km/h or a
missing unit left unchanged; the avamet variant multiplies m/s by 3.6 and
leaves km/h, kph or a missing unit unchanged, but its unit alternation has
no mph token, so an mph-suffixed value is stored unchanged (10 mph becomes
wind_speed_kmh 10, not 16.09). -/
theorem C8_wind_unit_normalization_amended (v : Rat) :
    wx9_wind_normalize v (some "m/s") = round2 (qMul v (mkRat 18 5)) ∧
    wx9_wind_normalize v (some "mph") = round2 (qMul v (mkRat 80467 50000)) ∧
    wx9_wind_normalize v (some "km/h") = round2 v ∧
    wx9_wind_normalize v none = round2 v ∧
    avamet_wind_normalize v (some "m/s") = round2 (qMul v (mkRat 18 5)) ∧
    avamet_wind_normalize v (some "km/h") = round2 v ∧
    avamet_wind_normalize v (some "kph") = round2 v ∧
    avamet_wind_normalize v none = round2 v ∧
    fmGet (parse_avamet ["Wind: 10 mph"]) Field.wind_speed_kmh = some 10 ∧
    fmGet (parse_wx9 ["Wind: 10 mph"]) Field.wind_speed_kmh = some (mkRat 1609 100) :=
  ⟨rfl, rfl, rfl, rfl, rfl, rfl, rfl, rfl, by decide, by decide⟩

/-- C8 counterexample: the claim as stated says both variants multiply an
mph value by 1.60934, but the avamet variant stores 10 mph as 10 (its unit
alternation is `km/h|kph|m/s`), while the wx9 variant stores 16.09. -/
theorem C8_avamet_mph_counterexample :
    fmGet (parse_avamet ["Wind: 10 mph"]) Field.wind_speed_kmh = some 10 ∧
    fmGet (parse_wx9 ["Wind: 10 mph"]) Field.wind_speed_kmh = some (mkRat 1609 100) :=
  ⟨by decide, by decide⟩

/-- C9 counterexample: the day projection's rain_today is not a passthrough
or rename of any single source field: it is the Python `or` of rain_today
and rain_mm, so no field f satisfies `rain_today projection = get f` for
all field maps (rain_today 0.0 falls through to rain_mm). -/
theorem C9_rain_today_not_a_rename :
    ¬ ∃ f : Field, ∀ datos : FieldMap,
        (dia_projection (Snapshot.ok "s" "n" "u" 0 datos)).rain_today = fmGet datos f := by
  rintro ⟨f, hf⟩
  have h1 := hf [(Field.rain_today, 1)]
  have h2 := hf [(Field.rain_today, 0), (Field.rain_mm, 5)]
  cases f <;> revert h1 h2 <;> decide

/-- C9 (amended): the now, month and year projections are pure
select-and-rename over the field map (absent fields propagate as `none`);
of the day projection's fields, the three temperature and wind entries are
pure renames, while `rain_today` is the Python `or` coalesce of rain_today
and rain_mm: a present nonzero rain_today passes through, and an absent or
0.0 rain_today falls back to rain_mm.  No projection can fail on a missing
field. -/
theorem C9_projections_amended (datos : FieldMap) (sid nom u : String) (t : Int) :
    ahora_projection (Snapshot.ok sid nom u t datos) =
      ⟨fmGet datos Field.temperature, fmGet datos Field.humidity,
       fmGet datos Field.wind_speed_kmh, fmGet datos Field.rain_mm, some t⟩ ∧
    mes_projection (Snapshot.ok sid nom u t datos) =
      ⟨fmGet datos Field.month_rain_mm, fmGet datos Field.month_temp_max,
       fmGet datos Field.month_temp_min, some t⟩ ∧
    anio_projection (Snapshot.ok sid nom u t datos) =
      ⟨fmGet datos Field.year_rain_mm, fmGet datos Field.year_temp_max,
       fmGet datos Field.year_temp_min, some t⟩ ∧
    (dia_projection (Snapshot.ok sid nom u t datos)).day_max_temp =
      fmGet datos Field.day_temp_max ∧
    (dia_projection (Snapshot.ok sid nom u t datos)).day_min_temp =
      fmGet datos Field.day_temp_min ∧
    (dia_projection (Snapshot.ok sid nom u t datos)).day_max_wind =
      fmGet datos Field.day_wind_max ∧
    (fmGet datos Field.day_wind_max = none →
       (dia_projection (Snapshot.ok sid nom u t datos)).day_max_wind = none) ∧
    (∀ v : Rat, fmGet datos Field.rain_today = some v → v ≠ 0 →
       (dia_projection (Snapshot.ok sid nom u t datos)).rain_today = some v) ∧
    (fmGet datos Field.rain_today = none →
       (dia_projection (Snapshot.ok sid nom u t datos)).rain_today =
         fmGet datos Field.rain_mm) ∧
    (fmGet datos Field.rain_today = some 0 →
       (dia_projection (Snapshot.ok sid nom u t datos)).rain_today =
         fmGet datos Field.rain_mm) := by
  refine ⟨rfl, rfl, rfl, rfl, rfl, rfl, ?_, ?_, ?_, ?_⟩
  · intro h
    simp [dia_projection, snapshotDatos, h]
  · intro v hv hne
    simp [dia_projection, snapshotDatos, pyOrQ, hv, hne]
  · intro h
    simp [dia_projection, snapshotDatos, pyOrQ, h]
  · intro h
    simp [dia_projection, snapshotDatos, pyOrQ, h]

/-- Witness for C9: a field map carrying rain_today 0.0 and rain_mm 5.0
projects rain_today as 5.0. -/
theorem C9_projections_amended_witness :
    (dia_projection (Snapshot.ok "s" "n" "u" 0
        [(Field.rain_today, 0), (Field.rain_mm, 5)])).rain_today = some 5 := by
  have h := (C9_projections_amended [(Field.rain_today, 0), (Field.rain_mm, 5)]
    "s" "n" "u" 0).2.2.2.2.2.2.2.2.2 (by decide)
  rw [h]
  decide

/-- C10: re-registering an existing id overwrites the registry entry with
the new configuration but leaves the cache list untouched, so a fresh cache
entry for that id keeps being served by the scrape (through `/completo`)
until the 120-second TTL expires, old configuration and all. -/
theorem C10_add_overwrites_registry_not_cache (fetch : FetchFn) (now : Int) (w : World)
    (item : AddItem) (sid nom u : String) (e : CacheEntry)
    (hid : item.id = some sid) (hn : item.nombre = some nom) (hu : item.url = some u)
    (hc : dictGet w.cache sid = some e) (hfresh : now - e.ts < 120) :
    api_add_station w item =
      Except.ok (⟨⟨sid, nom, u, some (item.tipo.getD "avamet")⟩⟩,
        ⟨dictSet w.estaciones sid ⟨sid, nom, u, some (item.tipo.getD "avamet")⟩, w.cache⟩) ∧
    dictGet (dictSet w.estaciones sid ⟨sid, nom, u, some (item.tipo.getD "avamet")⟩) sid =
      some ⟨sid, nom, u, some (item.tipo.getD "avamet")⟩ ∧
    api_estacion_completo fetch now
        ⟨dictSet w.estaciones sid ⟨sid, nom, u, some (item.tipo.getD "avamet")⟩, w.cache⟩ sid =
      Except.ok (⟨e.data⟩,
        ⟨dictSet w.estaciones sid ⟨sid, nom, u, some (item.tipo.getD "avamet")⟩, w.cache⟩) := by
  refine ⟨?_, dictGet_dictSet_self _ _ _, ?_⟩
  · simp [api_add_station, hid, hn, hu]
  · simp only [api_estacion_completo, dictGet_dictSet_self]
    rw [scrape_cache_hit fetch now w.cache _ e hc hfresh]

/-- Witness for C10: overwriting station `"s"` (old tipo avamet, new tipo
wx9, new URL) while an error snapshot for `"s"` is still fresh in the cache:
`/completo` keeps returning the cached snapshot of the old configuration. -/
theorem C10_add_overwrites_registry_not_cache_witness :
    api_estacion_completo (fun _ => Except.error "x") 10
        ⟨dictSet [("s", ⟨"s", "Old", "oldurl", some "avamet"⟩)] "s"
           ⟨"s", "New", "newurl", some "wx9"⟩,
         [("s", ⟨0, Snapshot.err "fetch_error: boom" "oldurl"⟩)]⟩ "s" =
      Except.ok (⟨Snapshot.err "fetch_error: boom" "oldurl"⟩,
        ⟨dictSet [("s", ⟨"s", "Old", "oldurl", some "avamet"⟩)] "s"
           ⟨"s", "New", "newurl", some "wx9"⟩,
         [("s", ⟨0, Snapshot.err "fetch_error: boom" "oldurl"⟩)]⟩) :=
  (C10_add_overwrites_registry_not_cache (fun _ => Except.error "x") 10
    ⟨[("s", ⟨"s", "Old", "oldurl", some "avamet"⟩)],
     [("s", ⟨0, Snapshot.err "fetch_error: boom" "oldurl"⟩)]⟩
    ⟨some "s", some "New", some "newurl", some "wx9"⟩ "s" "New" "newurl"
    ⟨0, Snapshot.err "fetch_error: boom" "oldurl"⟩
    rfl rfl rfl (by decide) (by decide)).2.2

end Meteo
